import Mathlib

/-!
Shallow embedding of the service-bus-azure-watcher library (src/index.js).

Modelling conventions:
- JavaScript numbers held in the watcher's counters are modelled as Int.
- Message handles are abstracted as Nat identifiers (they are opaque objects
  in the source; only identity matters to the protocol).
- Asynchronous transport callbacks are modelled by passing the (err, data)
  outcome of the underlying call as an explicit argument to the function that
  installs the callback.
- Side effects are reified: emitted error events are collected in a list, and
  outgoing calls (receive, unlock, delete, listQueues, setTimeout-scheduled
  re-entries) are collected as a list of actions.
-/

namespace ServiceBusWatcher

/-- Period of the concurrency checker timer, src/index.js line 6. -/
def CHECK_CONCURRENCY_TIMER : Int := 10000

/-- Status string, src/index.js line 42. -/
def ON_ERROR_READ_MESSAGE_FROM_AZURE : String := "on_error_read_message_from_azure"

/-- Status string, src/index.js line 43. -/
def QUEUE_NOT_FOUND : String := "queue_not_found"

/-- Status string, src/index.js line 44. -/
def ON_UNLOCK_MESSAGE_FROM_AZURE : String := "on_unlock_message_from_azure"

/-- Status string, src/index.js line 45 (note the source maps the delete-failure
constant to the string with the extra "unlock" inside it). -/
def ON_REMOVE_MESSAGE_FROM_AZURE : String := "on_remove_unlock_message_from_azure"

/-- Status string, src/index.js line 46; declared but never emitted. -/
def ON_UNLOCK_MESSAGE_FROM_AZURE_MAX_ATTEMPTS : String := "on_unlock_message_from_azure_max_attempts"

/-- Status string, src/index.js line 47; declared but never emitted. -/
def ON_DELETE_MESSAGE_FROM_AZURE_MAX_ATTEMPTS : String := "on_delete_message_from_azure_max_attempts"

/-- Status string, src/index.js line 48. -/
def MAX_THREADS_EXCEEDED : String := "max_threads_exceeded"

/-- The queue-empty sentinel the Azure SDK passes as the receive error,
src/index.js line 53. -/
def AZURE_NO_MESSAGES : String := "No messages to receive"

/-- Options for the promise-retry module, src/index.js lines 63-66.  The source
declares them (and requires promise-retry) but never passes them to any call. -/
structure RetryOptions where
  retries : Nat
  maxTimeout : Nat
  deriving DecidableEq

def optionRetryPromise : RetryOptions := { retries := 3, maxTimeout := 4000 }

/-- A JavaScript error value as seen by the transport callbacks: either an
object (whose only protocol-relevant property is its code field) or a plain
string such as the queue-empty sentinel. -/
inductive JsErr where
  | obj (code : Option String)
  | str (t : String)
  deriving DecidableEq

/-- JavaScript truthiness for the error values above: objects are always
truthy, strings are truthy when nonempty. -/
def jsTruthy : JsErr → Bool
  | JsErr.obj _ => true
  | JsErr.str t => t != ""

def jsTruthyOpt : Option JsErr → Bool
  | none => false
  | some e => jsTruthy e

/-- A value a private promise rejects with: either an ErrorMessage instance
(src/index.js class ErrorMessage, carrying a status and the queue message) or
the raw error passed through.  The free-text message payload is abstracted. -/
inductive RejectVal where
  | errorMessage (status : String) (queueMessage : Option Nat)
  | raw (e : JsErr)
  deriving DecidableEq

/-- The queue descriptor returned by listQueues for the watched queue.
The activeMessageCount field models the result of
parseInt(CountDetails['d2p1:ActiveMessageCount'], 10) on the raw metadata:
none models NaN (the field fails to parse), some n a parsed integer.  The
source applies exactly this parseInt at every use site, so storing the parse
result is equivalent. -/
structure QueueData where
  QueueName : String
  activeMessageCount : Option Int
  deriving DecidableEq

/-- parseInt(x, 10) || 0 : NaN is falsy and becomes 0; a parsed 0 is falsy and
stays 0; every other integer passes through. -/
def jsParseIntOrZero (raw : Option Int) : Int :=
  match raw with
  | none => 0
  | some n => n

/-- An error event published on the emitter: the ErrorMessage status and the
queue message attached to it. -/
structure ErrorEvent where
  status : String
  queueMessage : Option Nat
  deriving DecidableEq

/-- An outgoing effect of the watcher:
- callListQueues / callUnlock / callDelete / issueReceive are calls into the
  Azure service-bus client;
- launchRead is an invocation of readOneMessage, with none for a direct
  synchronous call and some d for a call scheduled by setTimeout after d ms;
- scheduleCheckConcurrency is the setTimeout of the next monitor tick;
- invokeHandler is the call into the user's onMessage callback. -/
inductive Action where
  | callListQueues
  | callUnlock (m : Nat)
  | callDelete (m : Nat)
  | issueReceive (q : String)
  | launchRead (delay : Option Int)
  | scheduleCheckConcurrency (ms : Int)
  | invokeHandler (message : Option Nat)
  deriving DecidableEq

def Action.isLaunchRead : Action → Bool
  | Action.launchRead _ => true
  | _ => false

def Action.isReceive : Action → Bool
  | Action.issueReceive _ => true
  | _ => false

def Action.isUnlock : Action → Bool
  | Action.callUnlock _ => true
  | _ => false

def Action.isDelete : Action → Bool
  | Action.callDelete _ => true
  | _ => false

/-- The mutable fields of a ServiceBusAzureWatcher instance
(src/index.js constructor, lines 146-181).  The serviceBus client and the
registered user callbacks are external collaborators and are not part of the
state. -/
structure WatcherState where
  queueName : String
  concurrency : Int
  isStartRunning : Bool
  maxThreadsCreated : Int
  queueData : Option QueueData
  lastReadMessageAt : Option Nat
  lastReadMessage : Option Nat
  lastReadErrorMessage : Option JsErr
  lastJobDoneAt : Option Nat
  lastJobDone : Option Nat
  lastJobErrorDone : Option RejectVal
  deriving DecidableEq

/-- State right after the constructor ran. -/
def initialState (queueName : String) (concurrency : Int) : WatcherState :=
  { queueName := queueName
    concurrency := concurrency
    isStartRunning := false
    maxThreadsCreated := 0
    queueData := none
    lastReadMessageAt := none
    lastReadMessage := none
    lastReadErrorMessage := none
    lastJobDoneAt := none
    lastJobDone := none
    lastJobErrorDone := none }

/-- Result of running one synchronous piece of watcher code: the new state,
the error events emitted on the emitter, and the outgoing actions in order. -/
structure StepOutcome where
  state : WatcherState
  events : List ErrorEvent
  actions : List Action
  deriving DecidableEq

/-! ## ServiceBusPrivate (src/index.js lines 72-143) -/

/-- The body of the listQueues callback in getQueueData once err was handled:
array check, filter by queue name, first hit or null
(src/index.js lines 93-103). -/
def queueLookup (queueName : String) (remoteQueues : Option (List QueueData)) :
    Except RejectVal (Option QueueData) :=
  match remoteQueues with
  | none => Except.error (RejectVal.raw (JsErr.str "remoteQueues is not an array"))
  | some qs =>
    match qs.filter (fun q => q.QueueName == queueName) with
    | [] => Except.ok none
    | q :: _ => Except.ok (some q)

/-- getQueueData (src/index.js lines 86-106): one listQueues call; reject on a
truthy err, reject when the result is not an array, otherwise resolve with the
matching queue or null. -/
def getQueueData (queueName : String) (err : Option JsErr)
    (remoteQueues : Option (List QueueData)) :
    List Action × Except RejectVal (Option QueueData) :=
  ([Action.callListQueues],
    match err with
    | some e =>
      if jsTruthy e then Except.error (RejectVal.raw e)
      else queueLookup queueName remoteQueues
    | none => queueLookup queueName remoteQueues)

/-- unlockMessage (src/index.js lines 108-124): one unlockMessage transport
call; an object error with code '404' rejects with an ErrorMessage carrying
ON_UNLOCK_MESSAGE_FROM_AZURE, any other truthy error rejects raw, otherwise
resolve. -/
def unlockMessage (message : Nat) (err : Option JsErr) :
    List Action × Except RejectVal Unit :=
  ([Action.callUnlock message],
    match err with
    | some (JsErr.obj code) =>
      if code = some "404" then
        Except.error (RejectVal.errorMessage ON_UNLOCK_MESSAGE_FROM_AZURE (some message))
      else
        Except.error (RejectVal.raw (JsErr.obj code))
    | some (JsErr.str t) =>
      if t != "" then Except.error (RejectVal.raw (JsErr.str t)) else Except.ok ()
    | none => Except.ok ())

/-- removeMessage (src/index.js lines 126-142): same shape as unlockMessage,
with deleteMessage as the transport call and ON_REMOVE_MESSAGE_FROM_AZURE as
the terminal status. -/
def removeMessage (message : Nat) (err : Option JsErr) :
    List Action × Except RejectVal Unit :=
  ([Action.callDelete message],
    match err with
    | some (JsErr.obj code) =>
      if code = some "404" then
        Except.error (RejectVal.errorMessage ON_REMOVE_MESSAGE_FROM_AZURE (some message))
      else
        Except.error (RejectVal.raw (JsErr.obj code))
    | some (JsErr.str t) =>
      if t != "" then Except.error (RejectVal.raw (JsErr.str t)) else Except.ok ()
    | none => Except.ok ())

/-! ## Worker loop entry and message handling (src/index.js lines 317-396) -/

/-- Entry of readOneMessage (src/index.js lines 317-324): the defensive guard
clamps the counter, emits max_threads_exceeded and returns without a receive
call; otherwise one peek-lock receive call is issued. -/
def readOneMessageEntry (s : WatcherState) : StepOutcome :=
  if s.maxThreadsCreated > s.concurrency then
    { state := { s with maxThreadsCreated := s.concurrency }
      events := [{ status := MAX_THREADS_EXCEEDED, queueMessage := none }]
      actions := [] }
  else
    { state := s, events := [], actions := [Action.issueReceive s.queueName] }

/-- The receiveQueueMessage callback (src/index.js lines 324-395): record the
read, then branch on the error.  The queue-empty sentinel and any other truthy
error both schedule a retry after 500 ms; only the latter publishes an event.
Otherwise the done callback is created - the IIFE on lines 349-352 runs at
creation time and records lastJobDoneAt/lastJobDone right here, before the
user handler is invoked - and the handler is called. -/
def receiveCallback (s : WatcherState) (now : Nat) (err : Option JsErr)
    (message : Option Nat) : StepOutcome :=
  let s1 := { s with
    lastReadMessageAt := some now
    lastReadMessage := message
    lastReadErrorMessage := err }
  if err = some (JsErr.str AZURE_NO_MESSAGES) then
    { state := s1, events := [], actions := [Action.launchRead (some 500)] }
  else if jsTruthyOpt err then
    { state := s1
      events := [{ status := ON_ERROR_READ_MESSAGE_FROM_AZURE, queueMessage := message }]
      actions := [Action.launchRead (some 500)] }
  else
    { state := { s1 with lastJobDoneAt := some now, lastJobDone := message }
      events := []
      actions := [Action.invokeHandler message] }

/-- One invocation of the done callback bound to message m
(src/index.js lines 353-391).  userErrTruthy is the truthiness of the error
value the user handler passed; transportErr is the (err) outcome of the
unlock/delete transport call.  A truthy user error unlocks, otherwise the
message is deleted; on rejection lastJobErrorDone is recorded and only an
ErrorMessage rejection is published; every branch then re-enters
readOneMessage directly. -/
def doneInvoke (s : WatcherState) (m : Nat) (userErrTruthy : Bool)
    (transportErr : Option JsErr) : StepOutcome :=
  if userErrTruthy then
    let pr := unlockMessage m transportErr
    match pr.2 with
    | Except.ok _ => { state := s, events := [], actions := pr.1 ++ [Action.launchRead none] }
    | Except.error e =>
      { state := { s with lastJobErrorDone := some e }
        events :=
          match e with
          | RejectVal.errorMessage st qm => [{ status := st, queueMessage := qm }]
          | RejectVal.raw _ => []
        actions := pr.1 ++ [Action.launchRead none] }
  else
    let pr := removeMessage m transportErr
    match pr.2 with
    | Except.ok _ => { state := s, events := [], actions := pr.1 ++ [Action.launchRead none] }
    | Except.error e =>
      { state := { s with lastJobErrorDone := some e }
        events :=
          match e with
          | RejectVal.errorMessage st qm => [{ status := st, queueMessage := qm }]
          | RejectVal.raw _ => []
        actions := pr.1 ++ [Action.launchRead none] }

/-! ## Spin-up (src/index.js lines 277-315) -/

/-- The while loop of startReceivingMessages (src/index.js lines 304-312),
with k playing maxCallsInvoked after its pre-increment.  In the source the
local variable i is initialised to 0 and never changed, so the computed delay
is 0 + 25 on every iteration. -/
def spinUpLoop (concurrency currentMessagesInQueue k maxThreadsCreated : Int) :
    Int × List Action :=
  if h : k < concurrency ∧ k < currentMessagesInQueue ∧ maxThreadsCreated < concurrency then
    let rest := spinUpLoop concurrency currentMessagesInQueue (k + 1) (maxThreadsCreated + 1)
    (rest.1, Action.launchRead (some (0 + 25)) :: rest.2)
  else (maxThreadsCreated, [])
termination_by (concurrency - k).toNat
decreasing_by omega

/-- startReceivingMessages (src/index.js lines 277-315).  The queueData
argument is the descriptor start assigned to this.queueData just before the
call.  With an empty (or unparsable) backlog the counter goes to one and one
readOneMessage is invoked directly - note the early return skips resetting
isStartRunning.  Otherwise the loop schedules each readOneMessage via
setTimeout. -/
def startReceivingMessages (s : WatcherState) (queueData : QueueData) : StepOutcome :=
  let s1 := { s with isStartRunning := true, maxThreadsCreated := 0 }
  let currentMessagesInQueue := jsParseIntOrZero queueData.activeMessageCount
  if currentMessagesInQueue = 0 then
    { state := { s1 with maxThreadsCreated := s1.maxThreadsCreated + 1 }
      events := []
      actions := [Action.launchRead none] }
  else
    let spun := spinUpLoop s1.concurrency currentMessagesInQueue 0 s1.maxThreadsCreated
    { state := { s1 with maxThreadsCreated := spun.1, isStartRunning := false }
      events := []
      actions := spun.2 }

/-- The then/catch continuation of start (src/index.js lines 211-228) applied
to the settled getQueueData promise: null emits queue_not_found; a rejection
emits an event with status start_error; success stores the descriptor, runs
startReceivingMessages and schedules the first concurrency check.  (The debug
event sent when that timer fires is not modelled: only error events are.) -/
def startWithLookup (s : WatcherState) (lookup : Except RejectVal (Option QueueData)) :
    StepOutcome :=
  match lookup with
  | Except.ok none =>
    { state := s, events := [{ status := QUEUE_NOT_FOUND, queueMessage := none }], actions := [] }
  | Except.ok (some queueData) =>
    let s1 := { s with queueData := some queueData }
    let out := startReceivingMessages s1 queueData
    { state := out.state
      events := out.events
      actions := out.actions ++ [Action.scheduleCheckConcurrency CHECK_CONCURRENCY_TIMER] }
  | Except.error _ =>
    { state := s, events := [{ status := "start_error", queueMessage := none }], actions := [] }

/-- start (src/index.js lines 211-228): issue the lookup and continue with
startWithLookup. -/
def start (s : WatcherState) (err : Option JsErr)
    (remoteQueues : Option (List QueueData)) : StepOutcome :=
  let g := getQueueData s.queueName err remoteQueues
  let out := startWithLookup s g.2
  { state := out.state, events := out.events, actions := g.1 ++ out.actions }

/-! ## Concurrency monitor (src/index.js lines 238-271) -/

/-- The while loop of checkConcurrency (src/index.js lines 256-259): increment
the counter and call readOneMessage directly (no setTimeout) until it reaches
the concurrency limit. -/
def checkConcurrencyLoop (concurrency maxThreadsCreated : Int) : Int × List Action :=
  if h : maxThreadsCreated < concurrency then
    let rest := checkConcurrencyLoop concurrency (maxThreadsCreated + 1)
    (rest.1, Action.launchRead none :: rest.2)
  else (maxThreadsCreated, [])
termination_by (concurrency - maxThreadsCreated).toNat
decreasing_by omega

/-- The then/catch continuation of one checkConcurrency tick
(src/index.js lines 240-269) applied to the settled getQueueData promise. -/
def checkConcurrencyWithLookup (s : WatcherState)
    (lookup : Except RejectVal (Option QueueData)) : StepOutcome :=
  match lookup with
  | Except.ok none =>
    { state := s
      events := [{ status := QUEUE_NOT_FOUND, queueMessage := none }]
      actions := [Action.scheduleCheckConcurrency CHECK_CONCURRENCY_TIMER] }
  | Except.ok (some queueData) =>
    let s1 := { s with queueData := some queueData }
    let currentMessagesInQueue := jsParseIntOrZero queueData.activeMessageCount
    if currentMessagesInQueue = 0 then
      { state := { s1 with maxThreadsCreated := 1 }
        events := []
        actions := [Action.scheduleCheckConcurrency CHECK_CONCURRENCY_TIMER] }
    else if currentMessagesInQueue > s1.concurrency ∧ s1.maxThreadsCreated < s1.concurrency then
      let looped := checkConcurrencyLoop s1.concurrency s1.maxThreadsCreated
      { state := { s1 with maxThreadsCreated := looped.1 }
        events := []
        actions := looped.2 ++ [Action.scheduleCheckConcurrency CHECK_CONCURRENCY_TIMER] }
    else if currentMessagesInQueue < s1.maxThreadsCreated then
      { state := { s1 with maxThreadsCreated := currentMessagesInQueue }
        events := []
        actions := [Action.scheduleCheckConcurrency CHECK_CONCURRENCY_TIMER] }
    else
      { state := s1
        events := []
        actions := [Action.scheduleCheckConcurrency CHECK_CONCURRENCY_TIMER] }
  | Except.error _ =>
    { state := s
      events := [{ status := "start_error", queueMessage := none }]
      actions := [Action.scheduleCheckConcurrency CHECK_CONCURRENCY_TIMER] }

/-- checkConcurrency (src/index.js lines 238-271): a tick does nothing at all
unless this.queueData is set; otherwise it issues the lookup and continues
with checkConcurrencyWithLookup. -/
def checkConcurrency (s : WatcherState) (err : Option JsErr)
    (remoteQueues : Option (List QueueData)) : StepOutcome :=
  match s.queueData with
  | none => { state := s, events := [], actions := [] }
  | some _ =>
    let g := getQueueData s.queueName err remoteQueues
    let out := checkConcurrencyWithLookup s g.2
    { state := out.state, events := out.events, actions := g.1 ++ out.actions }

/-! ## getWatcherInfo (src/index.js lines 183-204) -/

def jsNumOrNull (x : Option Nat) : Option Nat :=
  match x with
  | some n => if n = 0 then none else some n
  | none => none

def jsErrOrNull (x : Option JsErr) : Option JsErr :=
  match x with
  | some e => if jsTruthy e then some e else none
  | none => none

def jsRejTruthy : RejectVal → Bool
  | RejectVal.errorMessage _ _ => true
  | RejectVal.raw e => jsTruthy e

def jsRejOrNull (x : Option RejectVal) : Option RejectVal :=
  match x with
  | some e => if jsRejTruthy e then some e else none
  | none => none

structure WatcherInfo where
  isStartRunning : Bool
  queueName : String
  concurrency : Int
  maxThreadsCreated : Int
  queueData : Option QueueData
  currentMessagesInQueue : Int
  lastReadMessageAt : Option Nat
  lastReadMessage : Option Nat
  lastReadErrorMessage : Option JsErr
  lastJobDoneAt : Option Nat
  lastJobDone : Option Nat
  lastJobErrorDone : Option RejectVal
  deriving DecidableEq

/-- getWatcherInfo (src/index.js lines 183-204).  maxThreadsCreated is
reported through a JavaScript or-with-minus-two, so a zero counter reads as
-2; currentMessagesInQueue is -1 without a snapshot and parseInt-or-zero of
the snapshot field otherwise; the history fields go through or-with-null. -/
def getWatcherInfo (s : WatcherState) : WatcherInfo :=
  { isStartRunning := s.isStartRunning
    queueName := s.queueName
    concurrency := s.concurrency
    maxThreadsCreated := if s.maxThreadsCreated = 0 then -2 else s.maxThreadsCreated
    queueData := s.queueData
    currentMessagesInQueue :=
      match s.queueData with
      | some qd => jsParseIntOrZero qd.activeMessageCount
      | none => -1
    lastReadMessageAt := jsNumOrNull s.lastReadMessageAt
    lastReadMessage := s.lastReadMessage
    lastReadErrorMessage := jsErrOrNull s.lastReadErrorMessage
    lastJobDoneAt := jsNumOrNull s.lastJobDoneAt
    lastJobDone := s.lastJobDone
    lastJobErrorDone := jsRejOrNull s.lastJobErrorDone }

/-! ## Global transition system

Each constructor is one synchronous piece of watcher code running to
completion, with the outcome of the external calls it depends on universally
quantified.  The relation deliberately over-approximates the schedulings the
runtime can produce; invariants proved over it hold for every real
execution. -/

inductive Step : WatcherState → List ErrorEvent → WatcherState → Prop where
  | startStep (s : WatcherState) (err : Option JsErr) (remoteQueues : Option (List QueueData)) :
      Step s (start s err remoteQueues).events (start s err remoteQueues).state
  | checkStep (s : WatcherState) (err : Option JsErr) (remoteQueues : Option (List QueueData)) :
      Step s (checkConcurrency s err remoteQueues).events (checkConcurrency s err remoteQueues).state
  | entryStep (s : WatcherState) :
      Step s (readOneMessageEntry s).events (readOneMessageEntry s).state
  | recvStep (s : WatcherState) (now : Nat) (err : Option JsErr) (message : Option Nat) :
      Step s (receiveCallback s now err message).events (receiveCallback s now err message).state
  | doneStep (s : WatcherState) (m : Nat) (userErrTruthy : Bool) (transportErr : Option JsErr) :
      Step s (doneInvoke s m userErrTruthy transportErr).events
        (doneInvoke s m userErrTruthy transportErr).state

inductive Reachable : WatcherState → Prop where
  | init (queueName : String) (concurrency : Int) : Reachable (initialState queueName concurrency)
  | step {s s' : WatcherState} {evs : List ErrorEvent} :
      Reachable s → Step s evs s' → Reachable s'

/-! ## Loop lemmas -/

theorem checkConcurrencyLoop_spec (C : Int) :
    ∀ (n : Nat) (mtc : Int), (C - mtc).toNat ≤ n →
      (checkConcurrencyLoop C mtc).1 = max C mtc ∧
      (checkConcurrencyLoop C mtc).2.length = (C - mtc).toNat ∧
      ∀ a ∈ (checkConcurrencyLoop C mtc).2, a = Action.launchRead none := by
  intro n
  induction n with
  | zero =>
    intro mtc hn
    rw [checkConcurrencyLoop]
    split
    · next hc => exact absurd hn (by omega)
    · next hc =>
      refine ⟨by simp; omega, by simp; omega, by simp⟩
  | succ n ih =>
    intro mtc hn
    rw [checkConcurrencyLoop]
    split
    · next hc =>
      obtain ⟨h1, h2, h3⟩ := ih (mtc + 1) (by omega)
      refine ⟨by simpa using by rw [h1]; omega, ?_, ?_⟩
      · simp only [List.length_cons, h2]
        omega
      · intro a ha
        simp only [List.mem_cons] at ha
        rcases ha with rfl | ha
        · rfl
        · exact h3 a ha
    · next hc =>
      refine ⟨by simp; omega, by simp; omega, by simp⟩

theorem checkConcurrencyLoop_fst (C mtc : Int) :
    (checkConcurrencyLoop C mtc).1 = max C mtc :=
  (checkConcurrencyLoop_spec C (C - mtc).toNat mtc le_rfl).1

theorem checkConcurrencyLoop_length (C mtc : Int) :
    (checkConcurrencyLoop C mtc).2.length = (C - mtc).toNat :=
  (checkConcurrencyLoop_spec C (C - mtc).toNat mtc le_rfl).2.1

theorem checkConcurrencyLoop_mem (C mtc : Int) :
    ∀ a ∈ (checkConcurrencyLoop C mtc).2, a = Action.launchRead none :=
  (checkConcurrencyLoop_spec C (C - mtc).toNat mtc le_rfl).2.2

theorem spinUpLoop_spec (C B : Int) :
    ∀ (n : Nat) (k : Int), (C - k).toNat ≤ n →
      (spinUpLoop C B k k).1 = max k (min C B) ∧
      (spinUpLoop C B k k).2.length = (min C B - k).toNat ∧
      ∀ a ∈ (spinUpLoop C B k k).2, a = Action.launchRead (some 25) := by
  intro n
  induction n with
  | zero =>
    intro k hn
    rw [spinUpLoop]
    split
    · next hc => exact absurd hn (by omega)
    · next hc =>
      refine ⟨by simp; omega, by simp; omega, by simp⟩
  | succ n ih =>
    intro k hn
    rw [spinUpLoop]
    split
    · next hc =>
      obtain ⟨h1, h2, h3⟩ := ih (k + 1) (by omega)
      refine ⟨by simpa using by rw [h1]; omega, ?_, ?_⟩
      · simp only [List.length_cons, h2]
        omega
      · intro a ha
        simp only [List.mem_cons] at ha
        rcases ha with rfl | ha
        · norm_num
        · exact h3 a ha
    · next hc =>
      refine ⟨by simp; omega, by simp; omega, by simp⟩

theorem spinUpLoop_fst (C B k : Int) :
    (spinUpLoop C B k k).1 = max k (min C B) :=
  (spinUpLoop_spec C B (C - k).toNat k le_rfl).1

theorem spinUpLoop_length (C B k : Int) :
    (spinUpLoop C B k k).2.length = (min C B - k).toNat :=
  (spinUpLoop_spec C B (C - k).toNat k le_rfl).2.1

theorem spinUpLoop_mem (C B k : Int) :
    ∀ a ∈ (spinUpLoop C B k k).2, a = Action.launchRead (some 25) :=
  (spinUpLoop_spec C B (C - k).toNat k le_rfl).2.2

/-! ## Per-operation preservation lemmas -/

theorem startReceivingMessages_events (s : WatcherState) (qd : QueueData) :
    (startReceivingMessages s qd).events = [] := by
  unfold startReceivingMessages
  dsimp only
  split <;> rfl

theorem startReceivingMessages_concurrency (s : WatcherState) (qd : QueueData) :
    (startReceivingMessages s qd).state.concurrency = s.concurrency := by
  unfold startReceivingMessages
  dsimp only
  split <;> rfl

theorem startReceivingMessages_mtc_le (s : WatcherState) (qd : QueueData)
    (hC : 1 ≤ s.concurrency) :
    (startReceivingMessages s qd).state.maxThreadsCreated ≤ s.concurrency := by
  unfold startReceivingMessages
  dsimp only
  split
  · simpa using hC
  · have := spinUpLoop_fst s.concurrency (jsParseIntOrZero qd.activeMessageCount) 0
    simp only [this]
    omega

theorem startWithLookup_concurrency (s : WatcherState)
    (lookup : Except RejectVal (Option QueueData)) :
    (startWithLookup s lookup).state.concurrency = s.concurrency := by
  cases lookup with
  | error e => rfl
  | ok oqd =>
    cases oqd with
    | none => rfl
    | some qd =>
      show (startReceivingMessages { s with queueData := some qd } qd).state.concurrency
          = s.concurrency
      rw [startReceivingMessages_concurrency]

theorem startWithLookup_mtc_le (s : WatcherState)
    (lookup : Except RejectVal (Option QueueData)) (hC : 1 ≤ s.concurrency)
    (hI : s.maxThreadsCreated ≤ s.concurrency) :
    (startWithLookup s lookup).state.maxThreadsCreated ≤ s.concurrency := by
  cases lookup with
  | error e => exact hI
  | ok oqd =>
    cases oqd with
    | none => exact hI
    | some qd =>
      show (startReceivingMessages { s with queueData := some qd } qd).state.maxThreadsCreated
          ≤ s.concurrency
      exact startReceivingMessages_mtc_le _ qd hC

theorem checkConcurrencyWithLookup_concurrency (s : WatcherState)
    (lookup : Except RejectVal (Option QueueData)) :
    (checkConcurrencyWithLookup s lookup).state.concurrency = s.concurrency := by
  cases lookup with
  | error e => rfl
  | ok oqd =>
    cases oqd with
    | none => rfl
    | some qd =>
      unfold checkConcurrencyWithLookup
      dsimp only
      split
      · rfl
      · split
        · rfl
        · split <;> rfl

theorem checkConcurrencyWithLookup_mtc_le (s : WatcherState)
    (lookup : Except RejectVal (Option QueueData)) (hC : 1 ≤ s.concurrency)
    (hI : s.maxThreadsCreated ≤ s.concurrency) :
    (checkConcurrencyWithLookup s lookup).state.maxThreadsCreated ≤ s.concurrency := by
  cases lookup with
  | error e => exact hI
  | ok oqd =>
    cases oqd with
    | none => exact hI
    | some qd =>
      unfold checkConcurrencyWithLookup
      dsimp only
      split
      · simpa using hC
      · split
        · next hcond =>
          have := checkConcurrencyLoop_fst s.concurrency s.maxThreadsCreated
          simp only [this]
          omega
        · split
          · next hlt => simp; omega
          · exact hI

theorem readOneMessageEntry_concurrency (s : WatcherState) :
    (readOneMessageEntry s).state.concurrency = s.concurrency := by
  unfold readOneMessageEntry
  split <;> rfl

theorem readOneMessageEntry_mtc_le (s : WatcherState)
    (hI : s.maxThreadsCreated ≤ s.concurrency) :
    (readOneMessageEntry s).state.maxThreadsCreated ≤ s.concurrency := by
  unfold readOneMessageEntry
  split
  · simp
  · exact hI

theorem receiveCallback_concurrency (s : WatcherState) (now : Nat)
    (err : Option JsErr) (message : Option Nat) :
    (receiveCallback s now err message).state.concurrency = s.concurrency := by
  unfold receiveCallback
  dsimp only
  split
  · rfl
  · split <;> rfl

theorem receiveCallback_mtc (s : WatcherState) (now : Nat)
    (err : Option JsErr) (message : Option Nat) :
    (receiveCallback s now err message).state.maxThreadsCreated = s.maxThreadsCreated := by
  unfold receiveCallback
  dsimp only
  split
  · rfl
  · split <;> rfl

theorem doneInvoke_concurrency (s : WatcherState) (m : Nat) (userErrTruthy : Bool)
    (transportErr : Option JsErr) :
    (doneInvoke s m userErrTruthy transportErr).state.concurrency = s.concurrency := by
  unfold doneInvoke
  split <;> (dsimp only; split <;> rfl)

theorem doneInvoke_mtc (s : WatcherState) (m : Nat) (userErrTruthy : Bool)
    (transportErr : Option JsErr) :
    (doneInvoke s m userErrTruthy transportErr).state.maxThreadsCreated
      = s.maxThreadsCreated := by
  unfold doneInvoke
  split <;> (dsimp only; split <;> rfl)

theorem checkConcurrency_concurrency (s : WatcherState) (err : Option JsErr)
    (remoteQueues : Option (List QueueData)) :
    (checkConcurrency s err remoteQueues).state.concurrency = s.concurrency := by
  unfold checkConcurrency
  split
  · rfl
  · exact checkConcurrencyWithLookup_concurrency s _

theorem checkConcurrency_mtc_le (s : WatcherState) (err : Option JsErr)
    (remoteQueues : Option (List QueueData)) (hC : 1 ≤ s.concurrency)
    (hI : s.maxThreadsCreated ≤ s.concurrency) :
    (checkConcurrency s err remoteQueues).state.maxThreadsCreated ≤ s.concurrency := by
  unfold checkConcurrency
  split
  · exact hI
  · exact checkConcurrencyWithLookup_mtc_le s _ hC hI

theorem step_concurrency {s s' : WatcherState} {evs : List ErrorEvent}
    (h : Step s evs s') : s'.concurrency = s.concurrency := by
  cases h with
  | startStep err rq => exact startWithLookup_concurrency s _
  | checkStep err rq => exact checkConcurrency_concurrency s err rq
  | entryStep => exact readOneMessageEntry_concurrency s
  | recvStep now err message => exact receiveCallback_concurrency s now err message
  | doneStep m f terr => exact doneInvoke_concurrency s m f terr

theorem step_mtc_le {s s' : WatcherState} {evs : List ErrorEvent}
    (h : Step s evs s') (hC : 1 ≤ s.concurrency)
    (hI : s.maxThreadsCreated ≤ s.concurrency) :
    s'.maxThreadsCreated ≤ s.concurrency := by
  cases h with
  | startStep err rq => exact startWithLookup_mtc_le s _ hC hI
  | checkStep err rq => exact checkConcurrency_mtc_le s err rq hC hI
  | entryStep => exact readOneMessageEntry_mtc_le s hI
  | recvStep now err message => rw [receiveCallback_mtc]; exact hI
  | doneStep m f terr => rw [doneInvoke_mtc]; exact hI

/-- The central safety invariant: from the constructor state onward, with a
positive configured concurrency the worker counter never exceeds it. -/
theorem reachable_mtc_le {s : WatcherState} (hr : Reachable s) :
    1 ≤ s.concurrency → s.maxThreadsCreated ≤ s.concurrency := by
  induction hr with
  | init q c =>
    intro hC
    simp only [initialState] at *
    omega
  | step hr hstep ih =>
    intro hC
    have hcc := step_concurrency hstep
    rw [hcc] at hC ⊢
    exact step_mtc_le hstep hC (ih hC)

/-! ## Shape lemmas for the done callback -/

theorem doneInvoke_actions (s : WatcherState) (m : Nat) (u : Bool)
    (terr : Option JsErr) :
    (doneInvoke s m u terr).actions
      = (if u then [Action.callUnlock m] else [Action.callDelete m])
        ++ [Action.launchRead none] := by
  cases u <;> unfold doneInvoke <;> simp only [Bool.false_eq_true, if_false, if_true] <;>
    (split <;> rfl)

theorem doneInvoke_events (s : WatcherState) (m : Nat) (u : Bool)
    (terr : Option JsErr) :
    (doneInvoke s m u terr).events =
      match terr with
      | some (JsErr.obj code) =>
        if code = some "404" then
          [{ status := if u then ON_UNLOCK_MESSAGE_FROM_AZURE else ON_REMOVE_MESSAGE_FROM_AZURE
             queueMessage := some m }]
        else []
      | _ => [] := by
  rcases terr with _ | e
  · cases u <;> rfl
  · cases e with
    | obj code =>
      by_cases h4 : code = some "404" <;>
        cases u <;>
          simp [doneInvoke, unlockMessage, removeMessage, h4]
    | str t =>
      by_cases ht : t = "" <;>
        cases u <;>
          simp [doneInvoke, unlockMessage, removeMessage, ht]

theorem readOneMessageEntry_receive_one (s : WatcherState)
    (hI : s.maxThreadsCreated ≤ s.concurrency) :
    ((readOneMessageEntry s).actions.filter Action.isReceive).length = 1 := by
  unfold readOneMessageEntry
  rw [if_neg (by omega)]
  simp [Action.isReceive]

/-! ## Claims -/

/-- Claim C1: in every reachable watcher state (with the configured
concurrency a positive integer, as the constructor contract requires) the
worker counter maxThreadsCreated never exceeds the concurrency ceiling; and
an entry into readOneMessage that finds the counter above the ceiling emits
exactly one max_threads_exceeded error event, clamps the counter back to the
ceiling and issues no receive call. -/
theorem c1_max_threads_invariant :
    (∀ s : WatcherState, Reachable s → 1 ≤ s.concurrency →
      s.maxThreadsCreated ≤ s.concurrency) ∧
    (∀ s : WatcherState, s.concurrency < s.maxThreadsCreated →
      (readOneMessageEntry s).events
          = [{ status := MAX_THREADS_EXCEEDED, queueMessage := none }] ∧
      (readOneMessageEntry s).state = { s with maxThreadsCreated := s.concurrency } ∧
      (readOneMessageEntry s).actions = []) := by
  constructor
  · intro s hr hC
    exact reachable_mtc_le hr hC
  · intro s hgt
    unfold readOneMessageEntry
    rw [if_pos hgt]
    exact ⟨rfl, rfl, rfl⟩

def stateOverLimit : WatcherState :=
  { initialState "jobs" 1 with maxThreadsCreated := 2 }

theorem c1_max_threads_invariant_witness :
    (initialState "jobs" 1).maxThreadsCreated ≤ (initialState "jobs" 1).concurrency ∧
    (readOneMessageEntry stateOverLimit).events
      = [{ status := MAX_THREADS_EXCEEDED, queueMessage := none }] :=
  ⟨c1_max_threads_invariant.1 _ (Reachable.init "jobs" 1) (by decide),
   (c1_max_threads_invariant.2 stateOverLimit (by decide)).1⟩

/-- Claim C2: one invocation of the completion callback of message m issues
exactly one delete call (no error value) or exactly one unlock call (error
value), and in either case - whatever the transport outcome of that call -
exactly one readOneMessage re-entry follows, whose entry issues exactly one
receive call (the guard cannot fire, the counter being within the ceiling). -/
theorem c2_done_settles_once_and_receives_once
    (s : WatcherState) (m : Nat) (userErrTruthy : Bool) (transportErr : Option JsErr)
    (hI : s.maxThreadsCreated ≤ s.concurrency) :
    (userErrTruthy = true →
      (doneInvoke s m userErrTruthy transportErr).actions.filter Action.isUnlock
          = [Action.callUnlock m] ∧
      (doneInvoke s m userErrTruthy transportErr).actions.filter Action.isDelete = []) ∧
    (userErrTruthy = false →
      (doneInvoke s m userErrTruthy transportErr).actions.filter Action.isDelete
          = [Action.callDelete m] ∧
      (doneInvoke s m userErrTruthy transportErr).actions.filter Action.isUnlock = []) ∧
    (doneInvoke s m userErrTruthy transportErr).actions.filter Action.isLaunchRead
        = [Action.launchRead none] ∧
    ((readOneMessageEntry (doneInvoke s m userErrTruthy transportErr).state).actions.filter
        Action.isReceive).length = 1 := by
  refine ⟨?_, ?_, ?_, ?_⟩
  · intro hu
    subst hu
    rw [doneInvoke_actions]
    simp [Action.isUnlock, Action.isDelete]
  · intro hu
    subst hu
    rw [doneInvoke_actions]
    simp [Action.isUnlock, Action.isDelete]
  · rw [doneInvoke_actions]
    cases userErrTruthy <;> simp [Action.isLaunchRead, Action.isUnlock, Action.isDelete]
  · apply readOneMessageEntry_receive_one
    rw [doneInvoke_mtc, doneInvoke_concurrency]
    exact hI

theorem c2_done_settles_once_and_receives_once_witness :
    ((doneInvoke (initialState "jobs" 1) 7 false none).actions.filter Action.isDelete
        = [Action.callDelete 7]) ∧
    ((readOneMessageEntry (doneInvoke (initialState "jobs" 1) 7 false none).state).actions.filter
        Action.isReceive).length = 1 :=
  ⟨((c2_done_settles_once_and_receives_once (initialState "jobs" 1) 7 false none
      (by decide)).2.1 rfl).1,
   (c2_done_settles_once_and_receives_once (initialState "jobs" 1) 7 false none
      (by decide)).2.2.2⟩

/-- Claim C3: a failing unlock or delete call whose error is an object with
code '404' leads to exactly one published error event carrying the matching
terminal status (on_unlock_message_from_azure for unlock,
on_remove_unlock_message_from_azure for delete) and the message; any other
unlock/delete failure publishes no error event at all. -/
theorem c3_terminal_404_publishes_exactly_once
    (s : WatcherState) (m : Nat) (userErrTruthy : Bool) (e : JsErr)
    (hfail : jsTruthy e = true) :
    ((match e with | JsErr.obj code => code = some "404" | _ => False) →
      (doneInvoke s m userErrTruthy (some e)).events
        = [{ status := if userErrTruthy then ON_UNLOCK_MESSAGE_FROM_AZURE
                       else ON_REMOVE_MESSAGE_FROM_AZURE
             queueMessage := some m }]) ∧
    ((match e with | JsErr.obj code => code ≠ some "404" | _ => True) →
      (doneInvoke s m userErrTruthy (some e)).events = []) := by
  constructor
  · intro h404
    rw [doneInvoke_events]
    cases e with
    | obj code =>
      simp only at h404
      simp [h404]
    | str t => exact absurd h404 (by simp)
  · intro hother
    rw [doneInvoke_events]
    cases e with
    | obj code =>
      simp only at hother
      simp [hother]
    | str t => rfl

theorem c3_terminal_404_publishes_exactly_once_witness :
    ((doneInvoke (initialState "jobs" 1) 7 true (some (JsErr.obj (some "404")))).events
      = [{ status := ON_UNLOCK_MESSAGE_FROM_AZURE, queueMessage := some 7 }]) ∧
    ((doneInvoke (initialState "jobs" 1) 7 false (some (JsErr.obj (some "500")))).events
      = []) :=
  ⟨(c3_terminal_404_publishes_exactly_once (initialState "jobs" 1) 7 true
      (JsErr.obj (some "404")) (by decide)).1 (by decide),
   (c3_terminal_404_publishes_exactly_once (initialState "jobs" 1) 7 false
      (JsErr.obj (some "500")) (by decide)).2 (by decide)⟩

/-- Claim C4: at spin-up (with a positive configured ceiling), a backlog
estimate of zero launches exactly one worker loop, directly; a positive
backlog estimate B launches exactly min(C, B) worker loops. -/
theorem c4_spinup_launch_count (s : WatcherState) (qd : QueueData)
    (hC : 1 ≤ s.concurrency) :
    (jsParseIntOrZero qd.activeMessageCount = 0 →
      (startReceivingMessages s qd).actions.filter Action.isLaunchRead
        = [Action.launchRead none]) ∧
    (0 < jsParseIntOrZero qd.activeMessageCount →
      (((startReceivingMessages s qd).actions.filter Action.isLaunchRead).length : Int)
        = min s.concurrency (jsParseIntOrZero qd.activeMessageCount)) := by
  constructor
  · intro hB
    unfold startReceivingMessages
    dsimp only
    rw [if_pos hB]
    simp [Action.isLaunchRead]
  · intro hB
    unfold startReceivingMessages
    dsimp only
    rw [if_neg (by omega)]
    have hmem := spinUpLoop_mem s.concurrency (jsParseIntOrZero qd.activeMessageCount) 0
    have hfilter :
        (spinUpLoop s.concurrency (jsParseIntOrZero qd.activeMessageCount) 0 0).2.filter
            Action.isLaunchRead
          = (spinUpLoop s.concurrency (jsParseIntOrZero qd.activeMessageCount) 0 0).2 :=
      List.filter_eq_self.mpr (fun a ha => by rw [hmem a ha]; rfl)
    dsimp only at hfilter ⊢
    rw [hfilter, spinUpLoop_length]
    omega

def qdEmpty : QueueData := { QueueName := "jobs", activeMessageCount := some 0 }

def qdBacklog2 : QueueData := { QueueName := "jobs", activeMessageCount := some 2 }

theorem c4_spinup_launch_count_witness :
    ((startReceivingMessages (initialState "jobs" 3) qdEmpty).actions.filter
        Action.isLaunchRead = [Action.launchRead none]) ∧
    (((startReceivingMessages (initialState "jobs" 3) qdBacklog2).actions.filter
        Action.isLaunchRead).length : Int)
      = min (initialState "jobs" 3).concurrency (jsParseIntOrZero qdBacklog2.activeMessageCount) :=
  ⟨(c4_spinup_launch_count (initialState "jobs" 3) qdEmpty (by decide)).1 (by decide),
   (c4_spinup_launch_count (initialState "jobs" 3) qdBacklog2 (by decide)).2 (by decide)⟩

/-- Claim C5 evaluated on the code: with ceiling 2 and backlog 2, both
scheduled worker launches carry the same constant 25 ms delay.  In the source
the staggering variable i is initialised to 0 and never incremented, so
delay = i + 25 evaluates to 25 on every iteration; the launch delays are not
25 times the index (which would be 0 ms then 25 ms) and launch times do not
strictly increase. -/
theorem c5_spinup_delays_constant_25 :
    (startReceivingMessages (initialState "jobs" 2) qdBacklog2).actions
      = [Action.launchRead (some 25), Action.launchRead (some 25)] := by
  unfold startReceivingMessages
  norm_num [qdEmpty, qdBacklog2, initialState, jsParseIntOrZero]
  rw [spinUpLoop]
  norm_num
  rw [spinUpLoop]
  norm_num
  rw [spinUpLoop]
  norm_num

/-- Claim C6: a monitor tick whose refreshed backlog estimate B exceeds the
(positive) ceiling while the counter is below the ceiling brings the counter
exactly to the ceiling and launches one worker loop per increment, each as a
direct call with no setTimeout staggering. -/
theorem c6_monitor_scales_to_limit (s : WatcherState) (qd : QueueData)
    (hC : 1 ≤ s.concurrency)
    (hB : s.concurrency < jsParseIntOrZero qd.activeMessageCount)
    (hmtc : s.maxThreadsCreated < s.concurrency) :
    (checkConcurrencyWithLookup s (Except.ok (some qd))).state.maxThreadsCreated
        = s.concurrency ∧
    (((checkConcurrencyWithLookup s (Except.ok (some qd))).actions.filter
        Action.isLaunchRead).length : Int) = s.concurrency - s.maxThreadsCreated ∧
    (∀ a ∈ (checkConcurrencyWithLookup s (Except.ok (some qd))).actions,
      Action.isLaunchRead a = true → a = Action.launchRead none) := by
  unfold checkConcurrencyWithLookup
  dsimp only
  rw [if_neg (by omega), if_pos (show _ ∧ _ from ⟨hB, hmtc⟩)]
  refine ⟨?_, ?_, ?_⟩
  · have := checkConcurrencyLoop_fst s.concurrency s.maxThreadsCreated
    dsimp only
    omega
  · have hmem := checkConcurrencyLoop_mem s.concurrency s.maxThreadsCreated
    have hlen := checkConcurrencyLoop_length s.concurrency s.maxThreadsCreated
    dsimp only
    rw [List.filter_append]
    have hfilter :
        (checkConcurrencyLoop s.concurrency s.maxThreadsCreated).2.filter Action.isLaunchRead
          = (checkConcurrencyLoop s.concurrency s.maxThreadsCreated).2 :=
      List.filter_eq_self.mpr (fun a ha => by rw [hmem a ha]; rfl)
    rw [hfilter]
    simp only [List.filter, Action.isLaunchRead, List.length_append, hlen]
    norm_num
    omega
  · intro a ha hlaunch
    dsimp only at ha
    rcases List.mem_append.mp ha with ha | ha
    · exact checkConcurrencyLoop_mem s.concurrency s.maxThreadsCreated a ha
    · simp only [List.mem_singleton] at ha
      subst ha
      exact absurd hlaunch (by simp [Action.isLaunchRead])

def stateMonitor : WatcherState :=
  { initialState "jobs" 5 with maxThreadsCreated := 1 }

def qdBacklog8 : QueueData := { QueueName := "jobs", activeMessageCount := some 8 }

theorem c6_monitor_scales_to_limit_witness :
    (checkConcurrencyWithLookup stateMonitor (Except.ok (some qdBacklog8))).state.maxThreadsCreated
        = stateMonitor.concurrency ∧
    (((checkConcurrencyWithLookup stateMonitor (Except.ok (some qdBacklog8))).actions.filter
        Action.isLaunchRead).length : Int)
      = stateMonitor.concurrency - stateMonitor.maxThreadsCreated :=
  ⟨(c6_monitor_scales_to_limit stateMonitor qdBacklog8 (by decide) (by decide) (by decide)).1,
   (c6_monitor_scales_to_limit stateMonitor qdBacklog8 (by decide) (by decide) (by decide)).2.1⟩

/-- Claim C7: a receive callback invoked with the queue-empty sentinel
publishes no error event and schedules exactly one readOneMessage retry,
after 500 ms. -/
theorem c7_no_messages_sentinel_retries_500 (s : WatcherState) (now : Nat)
    (message : Option Nat) :
    (receiveCallback s now (some (JsErr.str AZURE_NO_MESSAGES)) message).events = [] ∧
    (receiveCallback s now (some (JsErr.str AZURE_NO_MESSAGES)) message).actions
      = [Action.launchRead (some 500)] := by
  unfold receiveCallback
  dsimp only
  rw [if_pos rfl]
  exact ⟨rfl, rfl⟩

/-- Claim C8 evaluated on the code: the completion bookkeeping fields
lastJobDoneAt/lastJobDone are assigned when the done callback is created
inside the receive callback - i.e. at message receipt, before the user
handler runs - and a later done() invocation whose delete call succeeds
changes the watcher state not at all.  After receiving message 7 at time
1000 the fields read 1000 and 7 already, and they still read the receipt
values after the successful delete, contradicting the claim that they are
updated upon the delete succeeding. -/
theorem c8_completion_recorded_at_receipt_not_on_delete :
    (receiveCallback (initialState "jobs" 1) 1000 none (some 7)).state.lastJobDoneAt
        = some 1000 ∧
    (receiveCallback (initialState "jobs" 1) 1000 none (some 7)).state.lastJobDone
        = some 7 ∧
    (∀ s : WatcherState, (doneInvoke s 7 false none).state = s) ∧
    (doneInvoke (receiveCallback (initialState "jobs" 1) 1000 none (some 7)).state
        7 false none).state.lastJobDoneAt = some 1000 := by
  refine ⟨by decide, by decide, fun s => rfl, by decide⟩

/-! ## Event-status coverage, for claim C9 -/

def emittableStatuses : List String :=
  [ON_ERROR_READ_MESSAGE_FROM_AZURE, QUEUE_NOT_FOUND, ON_UNLOCK_MESSAGE_FROM_AZURE,
   ON_REMOVE_MESSAGE_FROM_AZURE, MAX_THREADS_EXCEEDED, "start_error"]

theorem startWithLookup_status (s : WatcherState)
    (lookup : Except RejectVal (Option QueueData)) :
    ∀ e ∈ (startWithLookup s lookup).events, e.status ∈ emittableStatuses := by
  cases lookup with
  | error e => simp [startWithLookup, emittableStatuses]
  | ok oqd =>
    cases oqd with
    | none => simp [startWithLookup, emittableStatuses]
    | some qd =>
      show ∀ e ∈ (startReceivingMessages { s with queueData := some qd } qd).events, _
      rw [startReceivingMessages_events]
      simp

theorem checkConcurrencyWithLookup_status (s : WatcherState)
    (lookup : Except RejectVal (Option QueueData)) :
    ∀ e ∈ (checkConcurrencyWithLookup s lookup).events, e.status ∈ emittableStatuses := by
  cases lookup with
  | error e => simp [checkConcurrencyWithLookup, emittableStatuses]
  | ok oqd =>
    cases oqd with
    | none => simp [checkConcurrencyWithLookup, emittableStatuses]
    | some qd =>
      unfold checkConcurrencyWithLookup
      dsimp only
      split
      · simp
      · split
        · simp
        · split <;> simp

theorem start_status (s : WatcherState) (err : Option JsErr)
    (remoteQueues : Option (List QueueData)) :
    ∀ e ∈ (start s err remoteQueues).events, e.status ∈ emittableStatuses :=
  startWithLookup_status s _

theorem checkConcurrency_status (s : WatcherState) (err : Option JsErr)
    (remoteQueues : Option (List QueueData)) :
    ∀ e ∈ (checkConcurrency s err remoteQueues).events, e.status ∈ emittableStatuses := by
  unfold checkConcurrency
  split
  · simp
  · exact checkConcurrencyWithLookup_status s _

theorem readOneMessageEntry_status (s : WatcherState) :
    ∀ e ∈ (readOneMessageEntry s).events, e.status ∈ emittableStatuses := by
  unfold readOneMessageEntry
  split <;> simp [emittableStatuses]

theorem receiveCallback_status (s : WatcherState) (now : Nat) (err : Option JsErr)
    (message : Option Nat) :
    ∀ e ∈ (receiveCallback s now err message).events, e.status ∈ emittableStatuses := by
  unfold receiveCallback
  dsimp only
  split
  · simp
  · split <;> simp [emittableStatuses]

theorem doneInvoke_status (s : WatcherState) (m : Nat) (u : Bool)
    (terr : Option JsErr) :
    ∀ e ∈ (doneInvoke s m u terr).events, e.status ∈ emittableStatuses := by
  rw [doneInvoke_events]
  rcases terr with _ | e
  · simp
  · cases e with
    | obj code =>
      by_cases h4 : code = some "404"
      · cases u <;> simp [h4, emittableStatuses]
      · simp [h4]
    | str t => simp

theorem step_status {s s' : WatcherState} {evs : List ErrorEvent} (h : Step s evs s') :
    ∀ e ∈ evs, e.status ∈ emittableStatuses := by
  cases h with
  | startStep err rq => exact start_status s err rq
  | checkStep err rq => exact checkConcurrency_status s err rq
  | entryStep => exact readOneMessageEntry_status s
  | recvStep now err message => exact receiveCallback_status s now err message
  | doneStep m f terr => exact doneInvoke_status s m f terr

/-- Claim C9: no step of the watcher ever publishes an error event whose
status is one of the two reserved max-attempts strings, and the lookup,
unlock and delete operations each perform exactly one underlying transport
call per invocation - none of them is wrapped in the declared 3-attempt
promise-retry policy. -/
theorem c9_no_max_attempts_no_retry_wrapping :
    (∀ (s s' : WatcherState) (evs : List ErrorEvent), Step s evs s' →
      ∀ e ∈ evs, e.status ≠ ON_UNLOCK_MESSAGE_FROM_AZURE_MAX_ATTEMPTS ∧
        e.status ≠ ON_DELETE_MESSAGE_FROM_AZURE_MAX_ATTEMPTS) ∧
    (∀ (q : String) (err : Option JsErr) (remoteQueues : Option (List QueueData)),
      (getQueueData q err remoteQueues).1 = [Action.callListQueues]) ∧
    (∀ (m : Nat) (terr : Option JsErr),
      (unlockMessage m terr).1 = [Action.callUnlock m]) ∧
    (∀ (m : Nat) (terr : Option JsErr),
      (removeMessage m terr).1 = [Action.callDelete m]) ∧
    optionRetryPromise.retries = 3 := by
  refine ⟨?_, fun _ _ _ => rfl, fun _ _ => rfl, fun _ _ => rfl, rfl⟩
  intro s s' evs h e he
  have hmem := step_status h e he
  simp only [emittableStatuses, List.mem_cons, List.not_mem_nil, or_false] at hmem
  rcases hmem with h1 | h1 | h1 | h1 | h1 | h1 <;> rw [h1] <;>
    exact ⟨by decide, by decide⟩

def stateOverLimitC9 : WatcherState :=
  { initialState "jobs" 1 with maxThreadsCreated := 5 }

theorem c9_no_max_attempts_no_retry_wrapping_witness :
    ({ status := MAX_THREADS_EXCEEDED, queueMessage := none } : ErrorEvent).status
        ≠ ON_UNLOCK_MESSAGE_FROM_AZURE_MAX_ATTEMPTS ∧
    ({ status := MAX_THREADS_EXCEEDED, queueMessage := none } : ErrorEvent).status
        ≠ ON_DELETE_MESSAGE_FROM_AZURE_MAX_ATTEMPTS :=
  c9_no_max_attempts_no_retry_wrapping.1 stateOverLimitC9
    (readOneMessageEntry stateOverLimitC9).state
    (readOneMessageEntry stateOverLimitC9).events
    (Step.entryStep stateOverLimitC9)
    { status := MAX_THREADS_EXCEEDED, queueMessage := none } (by decide)

/-- Claim C10: getWatcherInfo reports maxThreadsCreated as -2 exactly when the
internal counter is 0 (in particular right after construction, before start
launched anything), reports currentMessagesInQueue as -1 while no queue
snapshot is held, and reports it as 0 when the snapshot's active-message-count
field fails to parse as an integer. -/
theorem c10_watcher_info_sentinels (s : WatcherState) :
    (s.maxThreadsCreated = 0 → (getWatcherInfo s).maxThreadsCreated = -2) ∧
    (s.queueData = none → (getWatcherInfo s).currentMessagesInQueue = -1) ∧
    (∀ qd : QueueData, s.queueData = some qd → qd.activeMessageCount = none →
      (getWatcherInfo s).currentMessagesInQueue = 0) ∧
    (∀ (q : String) (c : Int), (getWatcherInfo (initialState q c)).maxThreadsCreated = -2) := by
  refine ⟨?_, ?_, ?_, ?_⟩
  · intro h
    simp [getWatcherInfo, h]
  · intro h
    simp [getWatcherInfo, h]
  · intro qd hq hn
    simp [getWatcherInfo, hq, hn, jsParseIntOrZero]
  · intro q c
    simp [getWatcherInfo, initialState]

def stateUnparsableCount : WatcherState :=
  { initialState "jobs" 3 with
      queueData := some { QueueName := "jobs", activeMessageCount := none } }

theorem c10_watcher_info_sentinels_witness :
    (getWatcherInfo (initialState "jobs" 3)).maxThreadsCreated = -2 ∧
    (getWatcherInfo (initialState "jobs" 3)).currentMessagesInQueue = -1 ∧
    (getWatcherInfo stateUnparsableCount).currentMessagesInQueue = 0 :=
  ⟨(c10_watcher_info_sentinels (initialState "jobs" 3)).1 rfl,
   (c10_watcher_info_sentinels (initialState "jobs" 3)).2.1 rfl,
   (c10_watcher_info_sentinels stateUnparsableCount).2.2.1
     { QueueName := "jobs", activeMessageCount := none } rfl rfl⟩

end ServiceBusWatcher
